import Mathlib

/-!
Verification of the geofence-aware GPS dispatch tracking subsystem of the
relishagro backend.

The development shallowly embeds the relevant Python source files:
  * `routes/gps_tracking.py`   — `calculate_distance_km`, `start_gps_tracking`,
    `log_gps_location`, `sync_gps_batch` (route layer)
  * `utils/offline_sync.py`    — `OfflineSyncQueue.sync_attendance_batch`,
    `OfflineSyncQueue.sync_gps_batch`
  * `services/notification_service.py` — `create_notification`,
    `notify_geofence_alert`
  * `utils/permissions.py`     — `require_role`
  * `config.py`                — the GPS settings block

Modelling conventions:
  * UUIDs and datetimes are modelled as `Nat`; the raw strings arriving from a
    device are parsed with `parseUUID` / `parseISO` (`String.toNat?`), which
    return `none` exactly where the Python constructors `uuid.UUID(...)` /
    `datetime.fromisoformat(...)` would raise on malformed input.
  * Float coordinates and distances are modelled as real numbers `ℝ`;
    confidence scores (never computed with) as `ℚ`.
  * The SQLAlchemy session is a record of lists (`DB`); `db.add` appends,
    `db.commit` either succeeds or fails (`commit_ok` parameter), a failing
    commit rolls back to the pre-call store.  The duplicate query inside
    `sync_attendance_batch` sees rows added earlier in the same batch
    (SQLAlchemy autoflush).
  * A raised `fastapi.HTTPException` is an `Except.error` carrying the status
    code and detail; raising happens before any store mutation is committed,
    so an `Except.error` result leaves the store unchanged.
  * The external Twilio sends are parameters of type
    `String → String → Except String Unit`: `Except.error` models a raised
    exception inside `_send_sms` / `_send_whatsapp`.
-/

/-- One vehicle trip (`models/dispatch.py`, class `Dispatch`; only the fields
the GPS subsystem reads or writes are modelled). -/
structure Dispatch where
  dispatch_id : Nat
  driver_id : Nat
  trip_status : String
  gps_tracking_active : Bool
deriving DecidableEq, Repr

/-- One position sample (`models/dispatch.py`, class `GPSTrackingLog`). -/
structure GPSTrackingLog where
  dispatch_id : Nat
  latitude : ℝ
  longitude : ℝ
  speed : Option ℝ
  timestamp : Nat
  is_offline_queued : Bool
  synced_at : Option Nat

/-- A geofence breach record (`models/dispatch.py`, class `GeofenceAlert`). -/
structure GeofenceAlert where
  dispatch_id : Nat
  alert_type : String
  latitude : ℝ
  longitude : ℝ
  message : String
  acknowledged : Bool

/-- A person (`models/person.py`, class `PersonRecord`; only the fields the
GPS and notification paths read). -/
structure PersonRecord where
  id : Nat
  full_name : String
  person_type : String
  status : String
  contact_number : Option String
deriving DecidableEq, Repr

/-- An in-app notification row (`models/notification.py`, class
`Notification`). -/
structure Notification where
  recipient_id : Nat
  notification_type : String
  title : String
  message : String
  data : Option String
  read : Bool
  sent_via_sms : Bool
  sent_via_whatsapp : Bool
deriving DecidableEq, Repr

/-- One attendance row (`models/attendance.py`, class `AttendanceLog`; the
fields written by the offline sync path). -/
structure AttendanceLog where
  person_id : Nat
  method : String
  timestamp : Nat
  location : String
  confidence_score : Option ℚ
  device_id : String
  synced_at : Option Nat
deriving DecidableEq, Repr

/-- The database session state: one list per table touched by the subsystem. -/
structure DB where
  dispatches : List Dispatch
  gps_logs : List GPSTrackingLog
  geofence_alerts : List GeofenceAlert
  persons : List PersonRecord
  notifications : List Notification
  attendance_logs : List AttendanceLog

/-- A raised `fastapi.HTTPException`: status code and detail string. -/
structure HTTPException where
  status_code : Nat
  detail : String
deriving DecidableEq, Repr

/-- GPS settings block of `config.py` (class `Settings`). -/
structure Settings where
  GPS_GEOFENCE_RADIUS_KM : ℝ
  FARM_LATITUDE : ℝ
  FARM_LONGITUDE : ℝ
  PROCESSING_UNIT_LATITUDE : ℝ
  PROCESSING_UNIT_LONGITUDE : ℝ

/-- The default values of the GPS settings block in `config.py`. -/
noncomputable def defaultSettings : Settings where
  GPS_GEOFENCE_RADIUS_KM := 5.0
  FARM_LATITUDE := 8.430153784606453
  FARM_LONGITUDE := 77.42507404406288
  PROCESSING_UNIT_LATITUDE := 8.097457521754535
  PROCESSING_UNIT_LONGITUDE := 77.550169800994

/-- Python's `math.radians`. -/
noncomputable def radians (x : ℝ) : ℝ := x * Real.pi / 180

/-- Python's `math.atan2 y x`: the angle of the point `(x, y)`, by the usual
case split on the signs of the arguments. -/
noncomputable def atan2 (y x : ℝ) : ℝ :=
  if 0 < x then Real.arctan (y / x)
  else if x < 0 ∧ 0 ≤ y then Real.arctan (y / x) + Real.pi
  else if x < 0 ∧ y < 0 then Real.arctan (y / x) - Real.pi
  else if x = 0 ∧ 0 < y then Real.pi / 2
  else if x = 0 ∧ y < 0 then -(Real.pi / 2)
  else 0

/-- `routes/gps_tracking.py`, `calculate_distance_km`: Haversine distance in
kilometers between two latitude/longitude pairs, on a sphere of radius
6371 km. -/
noncomputable def calculate_distance_km (lat1 lon1 lat2 lon2 : ℝ) : ℝ :=
  let R : ℝ := 6371
  let lat1_rad := radians lat1
  let lat2_rad := radians lat2
  let delta_lat := radians (lat2 - lat1)
  let delta_lon := radians (lon2 - lon1)
  let a := Real.sin (delta_lat / 2) ^ 2 +
    Real.cos lat1_rad * Real.cos lat2_rad * Real.sin (delta_lon / 2) ^ 2
  let c := 2 * atan2 (Real.sqrt a) (Real.sqrt (1 - a))
  R * c

/-- C9: `calculate_distance_km` is symmetric in its two points: swapping the
two coordinate pairs does not change the computed Haversine distance.  (In
the real-number model the two values are exactly equal; the function is a
pure Lean function, hence deterministic and side-effect free.) -/
theorem C9_distance_symm (lat1 lon1 lat2 lon2 : ℝ) :
    calculate_distance_km lat1 lon1 lat2 lon2 =
      calculate_distance_km lat2 lon2 lat1 lon1 := by
  have hsin : ∀ x y : ℝ, x = -y → Real.sin x ^ 2 = Real.sin y ^ 2 := by
    intro x y h
    rw [h, Real.sin_neg]
    ring
  simp only [calculate_distance_km, radians]
  rw [hsin ((lat2 - lat1) * Real.pi / 180 / 2) ((lat1 - lat2) * Real.pi / 180 / 2) (by ring),
    hsin ((lon2 - lon1) * Real.pi / 180 / 2) ((lon1 - lon2) * Real.pi / 180 / 2) (by ring),
    mul_comm (Real.cos (lat1 * Real.pi / 180)) (Real.cos (lat2 * Real.pi / 180))]

/-- `utils/permissions.py`, `ROLE_MAPPING`: capitalized JWT role names mapped
to database person_types. -/
def ROLE_MAPPING : List (String × String) :=
  [("Admin", "admin"), ("HarvestFlow", "harvestflow_manager"),
   ("FlavorCore", "flavorcore_manager"), ("Supervisor", "flavorcore_supervisor"),
   ("Worker", "worker"), ("Vendor", "vendor"), ("Driver", "driver")]

/-- Python's `str.lower()` on the ASCII role names in use, modelled as
per-character lowering. -/
def lowerString (s : String) : String := ⟨s.data.map Char.toLower⟩

/-- `utils/permissions.py`, the role-normalization loop inside
`require_role`: a role listed in `ROLE_MAPPING` is replaced by its mapped
person_type, any other role is lowercased. -/
def normalizeRole (role : String) : String :=
  match (ROLE_MAPPING.filter (fun p => p.1 == role)).head? with
  | some p => p.2
  | none => lowerString role

/-- `utils/permissions.py`, `require_role(allowed_roles)`: the authenticated
user passes iff their `person_type` is among the normalized allowed roles. -/
def require_role (allowed_roles : List String) (current_user : PersonRecord) : Bool :=
  (allowed_roles.map normalizeRole).contains current_user.person_type

/-- The 403 detail string raised by `require_role` on a role mismatch. -/
def roleDeniedDetail (allowed_roles : List String) : String :=
  "Access denied. Required role: " ++ String.intercalate ", " allowed_roles

/-- `services/notification_service.py`, the phone normalization inside
`_send_sms` / `_send_whatsapp`: a number without an international prefix gets
the Indian country code prepended. -/
def normalizePhone (phone_number : String) : String :=
  if phone_number.startsWith "+" then phone_number else "+91" ++ phone_number

/-- `services/notification_service.py`,
`NotificationService.create_notification`: create the in-app `Notification`
row, commit it, then best-effort attempt the requested external channels.
`twilio_client` says whether `_initialize_twilio` succeeded; `sms_send` /
`whatsapp_send` are the external Twilio calls, `Except.error` modelling a
raised exception, which the source catches and merely logs (so this function
is total: no exception propagates to the caller).  A channel flag is set only
when the channel was requested, the client exists, the recipient has a
contact number on file and the send did not raise; the final committed row
carries the final flags. -/
def create_notification (twilio_client : Bool)
    (sms_send whatsapp_send : String → String → Except String Unit)
    (db : DB) (recipient_id : Nat) (notification_type title message : String)
    (data : Option String) (send_sms send_whatsapp : Bool) :
    DB × Notification :=
  let notification : Notification :=
    { recipient_id := recipient_id, notification_type := notification_type,
      title := title, message := message, data := data, read := false,
      sent_via_sms := false, sent_via_whatsapp := false }
  match (db.persons.filter (fun p => p.id == recipient_id)).head? with
  | none => ({ db with notifications := db.notifications ++ [notification] }, notification)
  | some recipient =>
    match recipient.contact_number with
    | none => ({ db with notifications := db.notifications ++ [notification] }, notification)
    | some phone =>
      let sms_flag := send_sms && twilio_client &&
        (match sms_send (normalizePhone phone) message with
         | Except.ok _ => true
         | Except.error _ => false)
      let wa_flag := send_whatsapp && twilio_client &&
        (match whatsapp_send (normalizePhone phone) message with
         | Except.ok _ => true
         | Except.error _ => false)
      let final := { notification with sent_via_sms := sms_flag, sent_via_whatsapp := wa_flag }
      ({ db with notifications := db.notifications ++ [final] }, final)

/-- `services/notification_service.py`,
`NotificationService.notify_geofence_alert`: one `create_notification` call
per manager id, with `notification_type = "geofence_alert"`, `send_sms=True`,
`send_whatsapp=False`. -/
def notify_geofence_alert (twilio_client : Bool)
    (sms_send whatsapp_send : String → String → Except String Unit)
    (db : DB) (managers : List Nat) (driver_name alert_type : String) : DB :=
  managers.foldl
    (fun acc manager_id =>
      (create_notification twilio_client sms_send whatsapp_send acc manager_id
        "geofence_alert" ("GPS Alert: " ++ alert_type)
        ("Driver " ++ driver_name ++ " - " ++ alert_type)
        none true false).1)
    db

/-- SQLAlchemy identity-map update: mutating the object returned by
`.filter(...).first()` and committing updates the first matching row. -/
def updateFirst (l : List Dispatch) (p : Dispatch → Bool) (f : Dispatch → Dispatch) :
    List Dispatch :=
  match l with
  | [] => []
  | d :: rest => if p d then f d :: rest else d :: updateFirst rest p f

/-- Response of `start_gps_tracking`. -/
structure StartTrackingResult where
  success : Bool
  message : String
  dispatch_id : Nat
deriving DecidableEq, Repr

/-- `routes/gps_tracking.py`, `start_gps_tracking` (POST
`/gps/start-tracking/{dispatch_id}`): behind
`require_role(["driver", "harvestflow_manager"])`; 404 when no dispatch has
the given id; otherwise sets `gps_tracking_active = True` and
`trip_status = "in_transit"` on the matching dispatch and commits.  The
source performs no check of the dispatch's current `trip_status`. -/
def start_gps_tracking (db : DB) (dispatch_id : Nat) (current_user : PersonRecord) :
    Except HTTPException (DB × StartTrackingResult) :=
  if require_role ["driver", "harvestflow_manager"] current_user then
    match (db.dispatches.filter (fun d => d.dispatch_id == dispatch_id)).head? with
    | none => Except.error ⟨404, "Dispatch not found"⟩
    | some dispatch =>
      let upd := updateFirst db.dispatches (fun d => d.dispatch_id == dispatch_id)
        (fun d => { d with gps_tracking_active := true, trip_status := "in_transit" })
      let db1 : DB := { db with dispatches := upd }
      Except.ok (db1,
        { success := true, message := "GPS tracking started",
          dispatch_id := dispatch.dispatch_id })
  else Except.error ⟨403, roleDeniedDetail ["driver", "harvestflow_manager"]⟩

/-- Response of `log_gps_location`. -/
structure LogLocationResult where
  success : Bool
  logged_at : Nat
  geofence_status : String
deriving DecidableEq, Repr

/-- The manager query inside `log_gps_location`: currently-active persons
whose `person_type` is `harvestflow_manager`, `flavorcore_manager` or
`admin`. -/
def activeManagers (db : DB) : List PersonRecord :=
  db.persons.filter (fun p =>
    (p.person_type == "harvestflow_manager" || p.person_type == "flavorcore_manager" ||
      p.person_type == "admin") && p.status == "active")

/-- The `GPSTrackingLog` row built by `log_gps_location` for one live ping:
not offline-queued, `synced_at` unset, `timestamp` the current time. -/
def livePingLog (dispatch : Dispatch) (latitude longitude : ℝ) (speed : Option ℝ)
    (now : Nat) : GPSTrackingLog :=
  { dispatch_id := dispatch.dispatch_id, latitude := latitude,
    longitude := longitude, speed := speed, timestamp := now,
    is_offline_queued := false, synced_at := none }

/-- The `GeofenceAlert` row built by `log_gps_location` when the ping is
outside both zones. -/
def deviationAlert (dispatch : Dispatch) (current_user : PersonRecord)
    (latitude longitude : ℝ) : GeofenceAlert :=
  { dispatch_id := dispatch.dispatch_id, alert_type := "route_deviation",
    latitude := latitude, longitude := longitude,
    message := "Driver " ++ current_user.full_name ++ " outside geofence",
    acknowledged := false }

/-- `routes/gps_tracking.py`, `log_gps_location` (POST `/gps/log-location`):
behind `require_role(["driver"])`; 404 unless some dispatch matches both the
given id and `driver_id == current_user.id`; otherwise appends one
`GPSTrackingLog` row, computes the Haversine distances to the farm and the
processing unit, and — when both exceed the geofence radius — appends one
`route_deviation` `GeofenceAlert` and notifies every active manager via
`notify_geofence_alert`; finally commits and reports the geofence status
(`"inside"` iff at least one distance is within the radius).  The source
performs no check of the dispatch's `trip_status`. -/
noncomputable def log_gps_location (settings : Settings) (twilio_client : Bool)
    (sms_send whatsapp_send : String → String → Except String Unit)
    (db : DB) (dispatch_id : Nat) (latitude longitude : ℝ) (speed : Option ℝ)
    (current_user : PersonRecord) (now : Nat) :
    Except HTTPException (DB × LogLocationResult) :=
  if require_role ["driver"] current_user then
    match (db.dispatches.filter (fun d =>
        d.dispatch_id == dispatch_id && d.driver_id == current_user.id)).head? with
    | none => Except.error ⟨404, "Dispatch not found or unauthorized"⟩
    | some dispatch =>
      let gps_log : GPSTrackingLog := livePingLog dispatch latitude longitude speed now
      let db1 : DB := { db with gps_logs := db.gps_logs ++ [gps_log] }
      let dist_from_farm :=
        calculate_distance_km latitude longitude settings.FARM_LATITUDE settings.FARM_LONGITUDE
      let dist_from_processing :=
        calculate_distance_km latitude longitude
          settings.PROCESSING_UNIT_LATITUDE settings.PROCESSING_UNIT_LONGITUDE
      let db2 : DB :=
        if settings.GPS_GEOFENCE_RADIUS_KM < dist_from_farm ∧
            settings.GPS_GEOFENCE_RADIUS_KM < dist_from_processing then
          let alert : GeofenceAlert := deviationAlert dispatch current_user latitude longitude
          let dbA : DB := { db1 with geofence_alerts := db1.geofence_alerts ++ [alert] }
          notify_geofence_alert twilio_client sms_send whatsapp_send dbA
            ((activeManagers dbA).map (fun m => m.id))
            current_user.full_name "Route Deviation"
        else db1
      Except.ok (db2,
        { success := true, logged_at := now,
          geofence_status :=
            if dist_from_farm ≤ settings.GPS_GEOFENCE_RADIUS_KM ∨
                dist_from_processing ≤ settings.GPS_GEOFENCE_RADIUS_KM then
              "inside"
            else "outside" })
  else Except.error ⟨403, roleDeniedDetail ["driver"]⟩

/-- Decimal parsing of the modelled identifier strings: `none` on the
empty string or any non-digit character. -/
def parseDigits (l : List Char) : Option Nat :=
  if l.isEmpty then none
  else l.foldl (fun acc c =>
    match acc with
    | none => none
    | some n => if c.isDigit then some (n * 10 + (c.toNat - 48)) else none) (some 0)

/-- Python `uuid.UUID(s)` on the modelled UUID domain: `none` models the
`ValueError` raised on a malformed identifier string. -/
def parseUUID (s : String) : Option Nat := parseDigits s.data

/-- Python `datetime.fromisoformat(s)` on the modelled time domain: `none`
models the `ValueError` raised on a malformed timestamp string. -/
def parseISO (s : String) : Option Nat := parseDigits s.data

/-- One raw attendance record of an offline batch, as submitted by a
device (the dict read by `sync_attendance_batch`). -/
structure AttendanceRecordIn where
  person_id : String
  method : String
  timestamp : String
  location : Option String
  confidence_score : Option ℚ
deriving DecidableEq, Repr

/-- The duplicate query inside `sync_attendance_batch`: is there an existing
`AttendanceLog` with this `{person_id, timestamp, device_id}`? -/
def attendance_key_present (logs : List AttendanceLog) (pid ts : Nat) (device_id : String) :
    Bool :=
  logs.any (fun l => l.person_id == pid && l.timestamp == ts && l.device_id == device_id)

/-- The `AttendanceLog` row built by `sync_attendance_batch` for one parsed
record: `location` defaults to `"main_gate"`, `synced_at` is the current
time. -/
def mkAttendanceLog (pid : Nat) (r : AttendanceRecordIn) (ts : Nat)
    (device_id : String) (now : Nat) : AttendanceLog :=
  { person_id := pid, method := r.method, timestamp := ts,
    location := r.location.getD "main_gate",
    confidence_score := r.confidence_score, device_id := device_id,
    synced_at := some now }

/-- The per-record `for` loop of `sync_attendance_batch`: a record whose
`person_id` or `timestamp` fails to parse raises inside the `try` block and
is appended to `failed_records` with the exception text; a well-formed
record whose key already exists in the (autoflushed) store is skipped
silently; otherwise the row is added and `synced_count` incremented.
Returns (pending store, synced_count, failed_records). -/
def attendance_loop (device_id : String) (now : Nat) (logs : List AttendanceLog)
    (cnt : Nat) (failed : List (AttendanceRecordIn × String)) :
    List AttendanceRecordIn → List AttendanceLog × Nat × List (AttendanceRecordIn × String)
  | [] => (logs, cnt, failed)
  | r :: rest =>
    match parseUUID r.person_id with
    | none =>
      attendance_loop device_id now logs cnt
        (failed ++ [(r, "badly formed UUID string")]) rest
    | some pid =>
      match parseISO r.timestamp with
      | none =>
        attendance_loop device_id now logs cnt
          (failed ++ [(r, "invalid isoformat string")]) rest
      | some ts =>
        if attendance_key_present logs pid ts device_id then
          attendance_loop device_id now logs cnt failed rest
        else
          attendance_loop device_id now (logs ++ [mkAttendanceLog pid r ts device_id now])
            (cnt + 1) failed rest

/-- The structured result of `sync_attendance_batch`: the success response
carries `synced_count`, `failed_count` and `failed_records`; the
commit-failure response carries `synced_count = 0` and the error string
only. -/
structure AttendanceSyncResult where
  success : Bool
  synced_count : Nat
  failed_count : Option Nat
  failed_records : Option (List (AttendanceRecordIn × String))
  error : Option String
deriving DecidableEq, Repr

/-- `utils/offline_sync.py`, `OfflineSyncQueue.sync_attendance_batch`: run
the per-record loop, then commit.  A failing commit (`commit_ok = false`)
rolls the store back to its prior state and reports `success = False` with
`synced_count = 0` and the exception text. -/
def sync_attendance_batch (db : DB) (attendance_records : List AttendanceRecordIn)
    (device_id : String) (now : Nat) (commit_ok : Bool) (commit_error : String) :
    DB × AttendanceSyncResult :=
  let st := attendance_loop device_id now db.attendance_logs 0 [] attendance_records
  if commit_ok then
    ({ db with attendance_logs := st.1 },
     { success := true, synced_count := st.2.1, failed_count := some st.2.2.length,
       failed_records := some st.2.2, error := none })
  else
    (db,
     { success := false, synced_count := 0, failed_count := none,
       failed_records := none, error := some commit_error })

/-- One raw GPS record of an offline batch (the dict built by the
`sync_gps_batch` route from a Pydantic `GPSLocation`): coordinates are
already floats, the timestamp is still a string to parse. -/
structure GPSRecordIn where
  latitude : ℝ
  longitude : ℝ
  speed : Option ℝ
  timestamp : String

/-- The `GPSTrackingLog` row built by `OfflineSyncQueue.sync_gps_batch` for
one parsed record: `is_offline_queued = True`, `synced_at` set to the
reconciliation time. -/
def mkOfflineGpsLog (dispatch_id : Nat) (r : GPSRecordIn) (ts now : Nat) :
    GPSTrackingLog :=
  { dispatch_id := dispatch_id, latitude := r.latitude, longitude := r.longitude,
    speed := r.speed, timestamp := ts, is_offline_queued := true,
    synced_at := some now }

/-- The per-record `for` loop of `OfflineSyncQueue.sync_gps_batch`: a record
whose timestamp fails to parse raises inside the `try` block, is logged and
skipped; every other record is added unconditionally — no duplicate check of
any kind is performed. -/
def gps_loop (dispatch_id now : Nat) (logs : List GPSTrackingLog) (cnt : Nat) :
    List GPSRecordIn → List GPSTrackingLog × Nat
  | [] => (logs, cnt)
  | r :: rest =>
    match parseISO r.timestamp with
    | none => gps_loop dispatch_id now logs cnt rest
    | some ts => gps_loop dispatch_id now (logs ++ [mkOfflineGpsLog dispatch_id r ts now]) (cnt + 1) rest

/-- The structured result of `OfflineSyncQueue.sync_gps_batch`. -/
structure GpsSyncResult where
  success : Bool
  synced_count : Option Nat
  error : Option String
deriving DecidableEq, Repr

/-- `utils/offline_sync.py`, `OfflineSyncQueue.sync_gps_batch`: run the
per-record loop, then commit; a failing commit rolls back and reports the
error. -/
def OfflineSyncQueue_sync_gps_batch (db : DB) (gps_records : List GPSRecordIn)
    (dispatch_id : Nat) (now : Nat) (commit_ok : Bool) (commit_error : String) :
    DB × GpsSyncResult :=
  let st := gps_loop dispatch_id now db.gps_logs 0 gps_records
  if commit_ok then
    ({ db with gps_logs := st.1 },
     { success := true, synced_count := some st.2, error := none })
  else
    (db, { success := false, synced_count := none, error := some commit_error })

/-- The request body of the batch-sync route (Pydantic `BatchGPSSync`, with
`dispatch_id` already through `uuid.UUID`). -/
structure BatchGPSSync where
  dispatch_id : Nat
  locations : List GPSRecordIn

/-- `routes/gps_tracking.py`, `sync_gps_batch` (POST `/gps/sync-batch`):
behind `require_role(["driver"])`; repackages the Pydantic locations as
dicts and delegates to `OfflineSyncQueue.sync_gps_batch`.  The route makes
no query against the dispatch table: it performs no existence, state or
ownership check on `request.dispatch_id`. -/
def sync_gps_batch_route (db : DB) (request : BatchGPSSync)
    (current_user : PersonRecord) (now : Nat) (commit_ok : Bool) (commit_error : String) :
    Except HTTPException (DB × GpsSyncResult) :=
  if require_role ["driver"] current_user then
    Except.ok (OfflineSyncQueue_sync_gps_batch db request.locations request.dispatch_id
      now commit_ok commit_error)
  else Except.error ⟨403, roleDeniedDetail ["driver"]⟩

/-- A batch record is well formed iff both its `person_id` and its
`timestamp` parse. -/
def wellFormedRecord (r : AttendanceRecordIn) : Bool :=
  (parseUUID r.person_id).isSome && (parseISO r.timestamp).isSome

/-- Whether a record's natural key `{person_id, timestamp, device_id}` is
already present in a store (false for malformed records). -/
def record_key_present (logs : List AttendanceLog) (device_id : String)
    (r : AttendanceRecordIn) : Bool :=
  match parseUUID r.person_id, parseISO r.timestamp with
  | some pid, some ts => attendance_key_present logs pid ts device_id
  | _, _ => false

/-- Specification-side description of the rows an attendance batch inserts,
following the spec's words: for each buffered record, check for an existing
log with the same `{person_id, timestamp, device_id}`; if found, skip; else
insert with `synced_at = now` (a record that fails to parse inserts
nothing). -/
def attendanceInsertsSpec (device_id : String) (now : Nat)
    (logs : List AttendanceLog) : List AttendanceRecordIn → List AttendanceLog
  | [] => []
  | r :: rest =>
    match parseUUID r.person_id, parseISO r.timestamp with
    | some pid, some ts =>
      if attendance_key_present logs pid ts device_id then
        attendanceInsertsSpec device_id now logs rest
      else
        mkAttendanceLog pid r ts device_id now ::
          attendanceInsertsSpec device_id now
            (logs ++ [mkAttendanceLog pid r ts device_id now]) rest
    | _, _ => attendanceInsertsSpec device_id now logs rest

/-- Specification-side description of the rows a GPS batch inserts: every
record whose timestamp parses becomes a row, unconditionally — the
description does not look at the existing store at all. -/
def gpsInsertsSpec (dispatch_id now : Nat) : List GPSRecordIn → List GPSTrackingLog
  | [] => []
  | r :: rest =>
    match parseISO r.timestamp with
    | none => gpsInsertsSpec dispatch_id now rest
    | some ts => mkOfflineGpsLog dispatch_id r ts now :: gpsInsertsSpec dispatch_id now rest

lemma attendance_loop_spec (device_id : String) (now : Nat) :
    ∀ (records : List AttendanceRecordIn) (logs : List AttendanceLog) (cnt : Nat)
      (failed : List (AttendanceRecordIn × String)),
      (attendance_loop device_id now logs cnt failed records).1 =
        logs ++ attendanceInsertsSpec device_id now logs records ∧
      (attendance_loop device_id now logs cnt failed records).2.1 =
        cnt + (attendanceInsertsSpec device_id now logs records).length ∧
      (attendance_loop device_id now logs cnt failed records).2.2.map Prod.fst =
        failed.map Prod.fst ++ records.filter (fun r => !(wellFormedRecord r)) := by
  intro records
  induction records with
  | nil => intro logs cnt failed; simp [attendance_loop, attendanceInsertsSpec]
  | cons r rest ih =>
    intro logs cnt failed
    cases hu : parseUUID r.person_id with
    | none =>
      have := ih logs cnt (failed ++ [(r, "badly formed UUID string")])
      simp only [attendance_loop, attendanceInsertsSpec, hu] at this ⊢
      refine ⟨this.1, this.2.1, ?_⟩
      rw [this.2.2]
      simp [wellFormedRecord, hu, List.filter_cons]
    | some pid =>
      cases ht : parseISO r.timestamp with
      | none =>
        have := ih logs cnt (failed ++ [(r, "invalid isoformat string")])
        simp only [attendance_loop, attendanceInsertsSpec, hu, ht] at this ⊢
        refine ⟨this.1, this.2.1, ?_⟩
        rw [this.2.2]
        simp [wellFormedRecord, hu, ht, List.filter_cons]
      | some ts =>
        cases hdup : attendance_key_present logs pid ts device_id with
        | true =>
          have hstep : attendance_loop device_id now logs cnt failed (r :: rest) =
              attendance_loop device_id now logs cnt failed rest := by
            simp [attendance_loop, hu, ht, hdup]
          have hspec : attendanceInsertsSpec device_id now logs (r :: rest) =
              attendanceInsertsSpec device_id now logs rest := by
            simp [attendanceInsertsSpec, hu, ht, hdup]
          have := ih logs cnt failed
          rw [hstep, hspec]
          refine ⟨this.1, this.2.1, ?_⟩
          rw [this.2.2]
          simp [wellFormedRecord, hu, ht, List.filter_cons]
        | false =>
          have hstep : attendance_loop device_id now logs cnt failed (r :: rest) =
              attendance_loop device_id now (logs ++ [mkAttendanceLog pid r ts device_id now])
                (cnt + 1) failed rest := by
            simp [attendance_loop, hu, ht, hdup]
          have hspec : attendanceInsertsSpec device_id now logs (r :: rest) =
              mkAttendanceLog pid r ts device_id now ::
                attendanceInsertsSpec device_id now
                  (logs ++ [mkAttendanceLog pid r ts device_id now]) rest := by
            simp [attendanceInsertsSpec, hu, ht, hdup]
          have := ih (logs ++ [mkAttendanceLog pid r ts device_id now]) (cnt + 1) failed
          rw [hstep, hspec]
          refine ⟨?_, ?_, ?_⟩
          · rw [this.1]; simp
          · rw [this.2.1]; simp only [List.length_cons]; omega
          · rw [this.2.2]
            simp [wellFormedRecord, hu, ht, List.filter_cons]

lemma gps_loop_spec (dispatch_id now : Nat) :
    ∀ (records : List GPSRecordIn) (logs : List GPSTrackingLog) (cnt : Nat),
      (gps_loop dispatch_id now logs cnt records).1 =
        logs ++ gpsInsertsSpec dispatch_id now records ∧
      (gps_loop dispatch_id now logs cnt records).2 =
        cnt + (gpsInsertsSpec dispatch_id now records).length := by
  intro records
  induction records with
  | nil => intro logs cnt; simp [gps_loop, gpsInsertsSpec]
  | cons r rest ih =>
    intro logs cnt
    cases ht : parseISO r.timestamp with
    | none =>
      have := ih logs cnt
      simp only [gps_loop, gpsInsertsSpec, ht] at this ⊢
      exact this
    | some ts =>
      have := ih (logs ++ [mkOfflineGpsLog dispatch_id r ts now]) (cnt + 1)
      simp only [gps_loop, gpsInsertsSpec, ht] at this ⊢
      refine ⟨?_, ?_⟩
      · rw [this.1]; simp
      · rw [this.2]; simp [Nat.add_comm, Nat.add_assoc, Nat.add_left_comm]

lemma create_notification_spec (twilio_client : Bool)
    (sms_send whatsapp_send : String → String → Except String Unit)
    (db : DB) (rid : Nat) (ty title msg : String) (data : Option String)
    (ss sw : Bool) :
    (create_notification twilio_client sms_send whatsapp_send db rid ty title msg data ss sw).1 =
      { db with notifications := db.notifications ++
          [(create_notification twilio_client sms_send whatsapp_send db rid ty title msg data ss sw).2] } ∧
    (create_notification twilio_client sms_send whatsapp_send db rid ty title msg data ss sw).2.recipient_id = rid ∧
    (create_notification twilio_client sms_send whatsapp_send db rid ty title msg data ss sw).2.notification_type = ty := by
  simp only [create_notification]
  cases hp : (db.persons.filter (fun p => p.id == rid)).head? with
  | none => simp
  | some recipient =>
    cases hc : recipient.contact_number with
    | none => simp [hc]
    | some phone => simp [hc]

lemma notify_geofence_alert_spec (twilio_client : Bool)
    (sms_send whatsapp_send : String → String → Except String Unit)
    (driver_name alert_type : String) :
    ∀ (managers : List Nat) (db : DB),
      ∃ notes : List Notification,
        notify_geofence_alert twilio_client sms_send whatsapp_send db managers
            driver_name alert_type =
          { db with notifications := db.notifications ++ notes } ∧
        notes.map (fun n => n.recipient_id) = managers ∧
        ∀ n ∈ notes, n.notification_type = "geofence_alert" := by
  intro managers
  induction managers with
  | nil =>
    intro db
    exact ⟨[], by simp [notify_geofence_alert], by simp, by simp⟩
  | cons m rest ih =>
    intro db
    obtain ⟨hdb, hrid, hty⟩ := create_notification_spec twilio_client sms_send whatsapp_send
      db m "geofence_alert" ("GPS Alert: " ++ alert_type)
      ("Driver " ++ driver_name ++ " - " ++ alert_type) none true false
    obtain ⟨notes, heq, hmap, htys⟩ := ih
      (create_notification twilio_client sms_send whatsapp_send db m "geofence_alert"
        ("GPS Alert: " ++ alert_type) ("Driver " ++ driver_name ++ " - " ++ alert_type)
        none true false).1
    refine ⟨(create_notification twilio_client sms_send whatsapp_send db m "geofence_alert"
        ("GPS Alert: " ++ alert_type) ("Driver " ++ driver_name ++ " - " ++ alert_type)
        none true false).2 :: notes, ?_, ?_, ?_⟩
    · have hstep : notify_geofence_alert twilio_client sms_send whatsapp_send db (m :: rest)
          driver_name alert_type =
          notify_geofence_alert twilio_client sms_send whatsapp_send
            (create_notification twilio_client sms_send whatsapp_send db m "geofence_alert"
              ("GPS Alert: " ++ alert_type) ("Driver " ++ driver_name ++ " - " ++ alert_type)
              none true false).1 rest driver_name alert_type := by
        simp [notify_geofence_alert]
      rw [hstep, heq, hdb]
      simp
    · simp [hmap, hrid]
    · intro n hn
      cases hn with
      | head => exact hty
      | tail _ h => exact htys n h

/-- Whether a route call raised an `HTTPException`. -/
def isHTTPError {α : Type} (r : Except HTTPException α) : Bool :=
  match r with
  | Except.error _ => true
  | Except.ok _ => false

/-- The size of the GPS log store after a successful `log_gps_location`
call (`none` when the call raised). -/
def okGpsLogCount (r : Except HTTPException (DB × LogLocationResult)) : Option Nat :=
  match r with
  | Except.ok (db, _) => some db.gps_logs.length
  | Except.error _ => none

/-- Test fixture: a driver. -/
def userW : PersonRecord :=
  { id := 7, full_name := "Dave", person_type := "driver", status := "active",
    contact_number := none }

/-- Test fixture: an active admin with a phone number on file. -/
def managerW : PersonRecord :=
  { id := 2, full_name := "Mo", person_type := "admin", status := "active",
    contact_number := some "9876543210" }

/-- Test fixture: a dispatch assigned to `userW` that is already delivered. -/
def dispatchDelivered : Dispatch :=
  { dispatch_id := 1, driver_id := 7, trip_status := "delivered",
    gps_tracking_active := false }

/-- Test fixture: a store holding only `dispatchDelivered` and `userW`. -/
def dbDelivered : DB :=
  { dispatches := [dispatchDelivered], gps_logs := [], geofence_alerts := [],
    persons := [userW], notifications := [], attendance_logs := [] }

/-- Test fixture: an external sender that always raises. -/
def smsAlwaysRaises : String → String → Except String Unit :=
  fun _ _ => Except.error "Twilio unreachable"

/-- C1: a live ping handled by `log_gps_location` is classified `"inside"`
iff its Haversine distance to at least one of the two configured zone
centers is at most the configured radius (a disjunction over the farm and
the processing unit); and whenever both distances exceed the radius, the
call appends exactly one `GeofenceAlert` of type `route_deviation` carrying
the triggering ping's coordinates, plus one `Notification` of type
`geofence_alert` per currently-active person whose role is
`harvestflow_manager`, `flavorcore_manager` or `admin`. -/
theorem C1_geofence_disjunction (settings : Settings) (twilio_client : Bool)
    (sms_send whatsapp_send : String → String → Except String Unit)
    (db : DB) (dispatch_id : Nat) (latitude longitude : ℝ) (speed : Option ℝ)
    (current_user : PersonRecord) (now : Nat) (dispatch : Dispatch)
    (hrole : require_role ["driver"] current_user = true)
    (hfind : (db.dispatches.filter (fun d =>
        d.dispatch_id == dispatch_id && d.driver_id == current_user.id)).head? =
      some dispatch) :
    ∃ db2 res,
      log_gps_location settings twilio_client sms_send whatsapp_send db dispatch_id
          latitude longitude speed current_user now = Except.ok (db2, res) ∧
      (res.geofence_status = "inside" ↔
        (calculate_distance_km latitude longitude settings.FARM_LATITUDE
            settings.FARM_LONGITUDE ≤ settings.GPS_GEOFENCE_RADIUS_KM ∨
          calculate_distance_km latitude longitude settings.PROCESSING_UNIT_LATITUDE
            settings.PROCESSING_UNIT_LONGITUDE ≤ settings.GPS_GEOFENCE_RADIUS_KM)) ∧
      ((settings.GPS_GEOFENCE_RADIUS_KM <
          calculate_distance_km latitude longitude settings.FARM_LATITUDE
            settings.FARM_LONGITUDE ∧
        settings.GPS_GEOFENCE_RADIUS_KM <
          calculate_distance_km latitude longitude settings.PROCESSING_UNIT_LATITUDE
            settings.PROCESSING_UNIT_LONGITUDE) →
        ∃ alert notes,
          db2.geofence_alerts = db.geofence_alerts ++ [alert] ∧
          alert.alert_type = "route_deviation" ∧
          alert.dispatch_id = dispatch.dispatch_id ∧
          alert.latitude = latitude ∧ alert.longitude = longitude ∧
          db2.notifications = db.notifications ++ notes ∧
          notes.map (fun n => n.recipient_id) = (activeManagers db).map (fun m => m.id) ∧
          ∀ n ∈ notes, n.notification_type = "geofence_alert") := by
  simp only [log_gps_location, hrole, hfind, eq_self_iff_true, if_true]
  refine ⟨_, _, rfl, ?_, ?_⟩
  · by_cases hin : calculate_distance_km latitude longitude settings.FARM_LATITUDE
        settings.FARM_LONGITUDE ≤ settings.GPS_GEOFENCE_RADIUS_KM ∨
        calculate_distance_km latitude longitude settings.PROCESSING_UNIT_LATITUDE
          settings.PROCESSING_UNIT_LONGITUDE ≤ settings.GPS_GEOFENCE_RADIUS_KM
    · rw [if_pos hin]
      simp [hin]
    · rw [if_neg hin]
      simp only [iff_iff_implies_and_implies]
      constructor
      · intro h
        exact absurd h (by decide)
      · intro h
        exact absurd h hin
  · intro hout
    rw [if_pos hout]
    obtain ⟨notes, heq, hmap, htys⟩ := notify_geofence_alert_spec twilio_client sms_send
      whatsapp_send current_user.full_name "Route Deviation"
      (List.map (fun m => m.id) (activeManagers
        { db with
          gps_logs := db.gps_logs ++ [livePingLog dispatch latitude longitude speed now],
          geofence_alerts := db.geofence_alerts ++
            [deviationAlert dispatch current_user latitude longitude] }))
      { db with
        gps_logs := db.gps_logs ++ [livePingLog dispatch latitude longitude speed now],
        geofence_alerts := db.geofence_alerts ++
          [deviationAlert dispatch current_user latitude longitude] }
    rw [heq]
    refine ⟨deviationAlert dispatch current_user latitude longitude, notes,
      by simp, rfl, rfl, rfl, rfl, by simp, ?_, htys⟩
    rw [hmap]
    rfl

/-- Test fixture: a dispatch assigned to `userW` that is in transit. -/
def dispatchTransit : Dispatch :=
  { dispatch_id := 1, driver_id := 7, trip_status := "in_transit",
    gps_tracking_active := true }

/-- Test fixture: a store with an in-transit dispatch, its driver and an
active admin. -/
def dbLive : DB :=
  { dispatches := [dispatchTransit], gps_logs := [], geofence_alerts := [],
    persons := [userW, managerW], notifications := [], attendance_logs := [] }

/-- Witness for C1: the hypotheses of `C1_geofence_disjunction` hold at a
concrete store and driver, and the conclusion follows by applying the
theorem there. -/
theorem C1_geofence_disjunction_witness :
    require_role ["driver"] userW = true ∧
    (dbLive.dispatches.filter (fun d =>
        d.dispatch_id == 1 && d.driver_id == userW.id)).head? = some dispatchTransit ∧
    (∃ db2 res,
      log_gps_location defaultSettings true smsAlwaysRaises smsAlwaysRaises dbLive 1
          0 0 none userW 0 = Except.ok (db2, res) ∧
      (res.geofence_status = "inside" ↔
        (calculate_distance_km 0 0 defaultSettings.FARM_LATITUDE
            defaultSettings.FARM_LONGITUDE ≤ defaultSettings.GPS_GEOFENCE_RADIUS_KM ∨
          calculate_distance_km 0 0 defaultSettings.PROCESSING_UNIT_LATITUDE
            defaultSettings.PROCESSING_UNIT_LONGITUDE ≤
            defaultSettings.GPS_GEOFENCE_RADIUS_KM)) ∧
      ((defaultSettings.GPS_GEOFENCE_RADIUS_KM <
          calculate_distance_km 0 0 defaultSettings.FARM_LATITUDE
            defaultSettings.FARM_LONGITUDE ∧
        defaultSettings.GPS_GEOFENCE_RADIUS_KM <
          calculate_distance_km 0 0 defaultSettings.PROCESSING_UNIT_LATITUDE
            defaultSettings.PROCESSING_UNIT_LONGITUDE) →
        ∃ alert notes,
          db2.geofence_alerts = dbLive.geofence_alerts ++ [alert] ∧
          alert.alert_type = "route_deviation" ∧
          alert.dispatch_id = dispatchTransit.dispatch_id ∧
          alert.latitude = 0 ∧ alert.longitude = 0 ∧
          db2.notifications = dbLive.notifications ++ notes ∧
          notes.map (fun n => n.recipient_id) =
            (activeManagers dbLive).map (fun m => m.id) ∧
          ∀ n ∈ notes, n.notification_type = "geofence_alert")) :=
  ⟨by decide, rfl,
    C1_geofence_disjunction defaultSettings true smsAlwaysRaises smsAlwaysRaises dbLive 1
      0 0 none userW 0 dispatchTransit (by decide) rfl⟩

lemma log_gps_location_appends_row (settings : Settings) (twilio_client : Bool)
    (sms_send whatsapp_send : String → String → Except String Unit)
    (db : DB) (dispatch_id : Nat) (latitude longitude : ℝ) (speed : Option ℝ)
    (current_user : PersonRecord) (now : Nat) (dispatch : Dispatch)
    (hrole : require_role ["driver"] current_user = true)
    (hfind : (db.dispatches.filter (fun d =>
        d.dispatch_id == dispatch_id && d.driver_id == current_user.id)).head? =
      some dispatch) :
    ∃ db2 res,
      log_gps_location settings twilio_client sms_send whatsapp_send db dispatch_id
          latitude longitude speed current_user now = Except.ok (db2, res) ∧
      db2.gps_logs = db.gps_logs ++ [livePingLog dispatch latitude longitude speed now] ∧
      res.success = true := by
  simp only [log_gps_location, hrole, hfind, eq_self_iff_true, if_true]
  refine ⟨_, _, rfl, ?_, rfl⟩
  by_cases hout : settings.GPS_GEOFENCE_RADIUS_KM <
      calculate_distance_km latitude longitude settings.FARM_LATITUDE
        settings.FARM_LONGITUDE ∧
      settings.GPS_GEOFENCE_RADIUS_KM <
      calculate_distance_km latitude longitude settings.PROCESSING_UNIT_LATITUDE
        settings.PROCESSING_UNIT_LONGITUDE
  · rw [if_pos hout]
    obtain ⟨notes, heq, hmap, htys⟩ := notify_geofence_alert_spec twilio_client sms_send
      whatsapp_send current_user.full_name "Route Deviation"
      (List.map (fun m => m.id) (activeManagers
        { db with
          gps_logs := db.gps_logs ++ [livePingLog dispatch latitude longitude speed now],
          geofence_alerts := db.geofence_alerts ++
            [deviationAlert dispatch current_user latitude longitude] }))
      { db with
        gps_logs := db.gps_logs ++ [livePingLog dispatch latitude longitude speed now],
        geofence_alerts := db.geofence_alerts ++
          [deviationAlert dispatch current_user latitude longitude] }
    rw [heq]
  · rw [if_neg hout]

/-- C2 (amended): the source of `log_gps_location` performs no trip-status
check at all — for every dispatch matched by id and assigned driver, with
`trip_status` equal to `"pending"` or `"delivered"` included, the call
succeeds (no error of any kind is raised) and appends exactly one
`GPSTrackingLog` row. -/
theorem C2_amended_no_state_check (settings : Settings) (twilio_client : Bool)
    (sms_send whatsapp_send : String → String → Except String Unit)
    (db : DB) (dispatch_id : Nat) (latitude longitude : ℝ) (speed : Option ℝ)
    (current_user : PersonRecord) (now : Nat) (dispatch : Dispatch)
    (hrole : require_role ["driver"] current_user = true)
    (hfind : (db.dispatches.filter (fun d =>
        d.dispatch_id == dispatch_id && d.driver_id == current_user.id)).head? =
      some dispatch)
    (hstatus : dispatch.trip_status = "pending" ∨ dispatch.trip_status = "delivered") :
    ∃ db2 res,
      log_gps_location settings twilio_client sms_send whatsapp_send db dispatch_id
          latitude longitude speed current_user now = Except.ok (db2, res) ∧
      db2.gps_logs = db.gps_logs ++ [livePingLog dispatch latitude longitude speed now] ∧
      res.success = true :=
  log_gps_location_appends_row settings twilio_client sms_send whatsapp_send db
    dispatch_id latitude longitude speed current_user now dispatch hrole hfind

/-- Counterexample for C2 as stated: on a dispatch whose `trip_status` is
`"delivered"`, `log_gps_location` called by the assigned driver does not
fail at all — it returns success and the GPS log store has grown by one
row, where the claim demanded a `StateError` and no row. -/
theorem C2_counterexample :
    dispatchDelivered.trip_status = "delivered" ∧
    isHTTPError (log_gps_location defaultSettings false smsAlwaysRaises smsAlwaysRaises
      dbDelivered 1 0 0 none userW 0) = false ∧
    okGpsLogCount (log_gps_location defaultSettings false smsAlwaysRaises smsAlwaysRaises
      dbDelivered 1 0 0 none userW 0) = some 1 := by
  obtain ⟨db2, res, hrun, hlogs, _⟩ := log_gps_location_appends_row defaultSettings false
    smsAlwaysRaises smsAlwaysRaises dbDelivered 1 0 0 none userW 0 dispatchDelivered
    (by decide) rfl
  refine ⟨rfl, ?_, ?_⟩
  · rw [hrun]
    rfl
  · rw [hrun]
    simp only [okGpsLogCount, hlogs]
    rfl

/-- Witness for C2 (amended): the hypotheses of `C2_amended_no_state_check`
hold at a concrete delivered dispatch, and the conclusion follows by
applying the theorem there. -/
theorem C2_amended_no_state_check_witness :
    require_role ["driver"] userW = true ∧
    (dbDelivered.dispatches.filter (fun d =>
        d.dispatch_id == 1 && d.driver_id == userW.id)).head? = some dispatchDelivered ∧
    (dispatchDelivered.trip_status = "pending" ∨
      dispatchDelivered.trip_status = "delivered") ∧
    (∃ db2 res,
      log_gps_location defaultSettings false smsAlwaysRaises smsAlwaysRaises dbDelivered 1
          0 0 none userW 0 = Except.ok (db2, res) ∧
      db2.gps_logs = dbDelivered.gps_logs ++ [livePingLog dispatchDelivered 0 0 none 0] ∧
      res.success = true) :=
  ⟨by decide, rfl, Or.inr rfl,
    C2_amended_no_state_check defaultSettings false smsAlwaysRaises smsAlwaysRaises
      dbDelivered 1 0 0 none userW 0 dispatchDelivered (by decide) rfl (Or.inr rfl)⟩

/-- The store returned by a successful `start_gps_tracking` call. -/
def startResultDB (r : Except HTTPException (DB × StartTrackingResult)) : Option DB :=
  match r with
  | Except.ok (db, _) => some db
  | Except.error _ => none

/-- Counterexample for C7 as stated: on a dispatch whose `trip_status` is
already `"delivered"` (a state the claim says must yield a `StateError`),
`start_gps_tracking` does not fail — it succeeds and flips the dispatch
back to `"in_transit"`. -/
theorem C7_counterexample :
    dispatchDelivered.trip_status = "delivered" ∧
    isHTTPError (start_gps_tracking dbDelivered 1 userW) = false ∧
    (startResultDB (start_gps_tracking dbDelivered 1 userW)).map
      (fun db2 => db2.dispatches.map (fun d => (d.trip_status, d.gps_tracking_active))) =
      some [("in_transit", true)] :=
  ⟨rfl, rfl, rfl⟩

/-- C7 (amended): `start_gps_tracking` fails with a 404 `"Dispatch not
found"` when no dispatch has the given id; but it performs no trip-status
check — for any existing dispatch, whatever its current `trip_status`
(`"pending"`, `"in_transit"` or `"delivered"` alike), it succeeds and sets
`trip_status = "in_transit"` and `gps_tracking_active = true` on the first
matching row. -/
theorem C7_amended_no_state_check (db : DB) (dispatch_id : Nat)
    (current_user : PersonRecord)
    (hrole : require_role ["driver", "harvestflow_manager"] current_user = true) :
    ((db.dispatches.filter (fun d => d.dispatch_id == dispatch_id)).head? = none →
      start_gps_tracking db dispatch_id current_user =
        Except.error ⟨404, "Dispatch not found"⟩) ∧
    (∀ dispatch,
      (db.dispatches.filter (fun d => d.dispatch_id == dispatch_id)).head? = some dispatch →
      start_gps_tracking db dispatch_id current_user =
        Except.ok
          ({ db with dispatches :=
              (updateFirst db.dispatches (fun d => d.dispatch_id == dispatch_id)
                (fun d =>
                  { d with gps_tracking_active := true, trip_status := "in_transit" })) },
           { success := true, message := "GPS tracking started",
             dispatch_id := dispatch.dispatch_id })) := by
  constructor
  · intro h
    simp only [start_gps_tracking, hrole, eq_self_iff_true, if_true, h]
  · intro dispatch h
    simp only [start_gps_tracking, hrole, eq_self_iff_true, if_true, h]

/-- Witness for C7 (amended): the hypothesis of `C7_amended_no_state_check`
holds for the fixture driver, and the conclusion follows by applying the
theorem at the store holding one delivered dispatch. -/
theorem C7_amended_no_state_check_witness :
    require_role ["driver", "harvestflow_manager"] userW = true ∧
    (((dbDelivered.dispatches.filter (fun d => d.dispatch_id == 1)).head? = none →
      start_gps_tracking dbDelivered 1 userW =
        Except.error ⟨404, "Dispatch not found"⟩) ∧
    (∀ dispatch,
      (dbDelivered.dispatches.filter (fun d => d.dispatch_id == 1)).head? = some dispatch →
      start_gps_tracking dbDelivered 1 userW =
        Except.ok
          ({ dbDelivered with dispatches :=
              (updateFirst dbDelivered.dispatches (fun d => d.dispatch_id == 1)
                (fun d =>
                  { d with gps_tracking_active := true, trip_status := "in_transit" })) },
           { success := true, message := "GPS tracking started",
             dispatch_id := dispatch.dispatch_id }))) :=
  ⟨by decide, C7_amended_no_state_check dbDelivered 1 userW (by decide)⟩

/-- Test fixture: a second driver, not assigned to any fixture dispatch. -/
def userB : PersonRecord :=
  { id := 20, full_name := "Bea", person_type := "driver", status := "active",
    contact_number := none }

/-- Counterexample for C8 as stated: driver `userB` calling
`log_gps_location` on the dispatch assigned to driver `userW` fails with
HTTP status 404 (`"Dispatch not found or unauthorized"`), not with a
403-class `OwnershipError` as the claim demands. -/
theorem C8_counterexample :
    dispatchTransit.driver_id = userW.id ∧
    userB.id ≠ userW.id ∧
    require_role ["driver"] userB = true ∧
    log_gps_location defaultSettings false smsAlwaysRaises smsAlwaysRaises dbLive 1
        0 0 none userB 0 =
      Except.error ⟨404, "Dispatch not found or unauthorized"⟩ ∧
    (404 : Nat) ≠ 403 :=
  ⟨rfl, by decide, by decide, rfl, by decide⟩

/-- C8 (amended): a call to `log_gps_location` by a driver who is not the
assigned driver of the (existing) target dispatch fails with the HTTP 404
`"Dispatch not found or unauthorized"` — the same not-found class as an
unknown dispatch, not a distinct 403-class ownership error — and, since the
handler raises before any commit, no `GPSTrackingLog` row is created. -/
theorem C8_amended_wrong_driver_404 (settings : Settings) (twilio_client : Bool)
    (sms_send whatsapp_send : String → String → Except String Unit)
    (db : DB) (dispatch_id : Nat) (latitude longitude : ℝ) (speed : Option ℝ)
    (current_user : PersonRecord) (now : Nat)
    (hrole : require_role ["driver"] current_user = true)
    (hexists : ∃ d ∈ db.dispatches, d.dispatch_id = dispatch_id)
    (hwrong : ∀ d ∈ db.dispatches, d.dispatch_id = dispatch_id →
      d.driver_id ≠ current_user.id) :
    log_gps_location settings twilio_client sms_send whatsapp_send db dispatch_id
        latitude longitude speed current_user now =
      Except.error ⟨404, "Dispatch not found or unauthorized"⟩ ∧
    okGpsLogCount (log_gps_location settings twilio_client sms_send whatsapp_send db
      dispatch_id latitude longitude speed current_user now) = none := by
  have hnil : db.dispatches.filter (fun d =>
      d.dispatch_id == dispatch_id && d.driver_id == current_user.id) = [] := by
    rw [List.filter_eq_nil_iff]
    intro d hd
    simp only [Bool.and_eq_true, beq_iff_eq, not_and]
    intro h1 h2
    exact hwrong d hd h1 h2
  have hrun : log_gps_location settings twilio_client sms_send whatsapp_send db dispatch_id
      latitude longitude speed current_user now =
      Except.error ⟨404, "Dispatch not found or unauthorized"⟩ := by
    simp only [log_gps_location, hrole, eq_self_iff_true, if_true, hnil, List.head?_nil]
  exact ⟨hrun, by rw [hrun]; rfl⟩

/-- Witness for C8 (amended): the hypotheses of
`C8_amended_wrong_driver_404` hold for driver `userB` against the dispatch
assigned to `userW`, and the conclusion follows by applying the theorem
there. -/
theorem C8_amended_wrong_driver_404_witness :
    require_role ["driver"] userB = true ∧
    (∃ d ∈ dbLive.dispatches, d.dispatch_id = 1) ∧
    (∀ d ∈ dbLive.dispatches, d.dispatch_id = 1 → d.driver_id ≠ userB.id) ∧
    (log_gps_location defaultSettings false smsAlwaysRaises smsAlwaysRaises dbLive 1
        0 0 none userB 0 =
      Except.error ⟨404, "Dispatch not found or unauthorized"⟩ ∧
    okGpsLogCount (log_gps_location defaultSettings false smsAlwaysRaises smsAlwaysRaises
      dbLive 1 0 0 none userB 0) = none) :=
  ⟨by decide, by decide, by decide,
    C8_amended_wrong_driver_404 defaultSettings false smsAlwaysRaises smsAlwaysRaises
      dbLive 1 0 0 none userB 0 (by decide) (by decide) (by decide)⟩

/-- C4: when `create_notification` is called with `send_sms = true` and the
external SMS send raises (the sender returns `Except.error` for every
input), the in-app `Notification` row is nevertheless created and
persisted, its `sent_via_sms` flag stays `false`, and no exception
propagates — `create_notification` is a total function returning the
updated store and the row. -/
theorem C4_sms_failure_best_effort (twilio_client : Bool)
    (sms_send whatsapp_send : String → String → Except String Unit)
    (db : DB) (recipient_id : Nat) (notification_type title message : String)
    (data : Option String) (send_whatsapp : Bool) (err : String)
    (hfail : ∀ phone msg, sms_send phone msg = Except.error err) :
    ((create_notification twilio_client sms_send whatsapp_send db recipient_id
        notification_type title message data true send_whatsapp).1).notifications =
      db.notifications ++
        [(create_notification twilio_client sms_send whatsapp_send db recipient_id
            notification_type title message data true send_whatsapp).2] ∧
    (create_notification twilio_client sms_send whatsapp_send db recipient_id
        notification_type title message data true send_whatsapp).2.sent_via_sms = false := by
  obtain ⟨h1, _, _⟩ := create_notification_spec twilio_client sms_send whatsapp_send db
    recipient_id notification_type title message data true send_whatsapp
  refine ⟨by rw [h1], ?_⟩
  simp only [create_notification]
  cases hp : (db.persons.filter (fun p => p.id == recipient_id)).head? with
  | none => simp
  | some recipient =>
    cases hc : recipient.contact_number with
    | none => simp [hc]
    | some phone => simp [hc, hfail]

/-- Witness for C4: the always-raising sender satisfies the hypothesis of
`C4_sms_failure_best_effort`, and the conclusion follows by applying the
theorem at a store whose recipient has a phone number on file (so the send
really is attempted). -/
theorem C4_sms_failure_best_effort_witness :
    (∀ phone msg, smsAlwaysRaises phone msg = Except.error "Twilio unreachable") ∧
    (((create_notification true smsAlwaysRaises smsAlwaysRaises dbLive 2
        "geofence_alert" "GPS Alert" "Driver Dave - Route Deviation" none true
        false).1).notifications =
      dbLive.notifications ++
        [(create_notification true smsAlwaysRaises smsAlwaysRaises dbLive 2
            "geofence_alert" "GPS Alert" "Driver Dave - Route Deviation" none true
            false).2] ∧
    (create_notification true smsAlwaysRaises smsAlwaysRaises dbLive 2
        "geofence_alert" "GPS Alert" "Driver Dave - Route Deviation" none true
        false).2.sent_via_sms = false) :=
  ⟨fun _ _ => rfl,
    C4_sms_failure_best_effort true smsAlwaysRaises smsAlwaysRaises dbLive 2
      "geofence_alert" "GPS Alert" "Driver Dave - Route Deviation" none false
      "Twilio unreachable" (fun _ _ => rfl)⟩

lemma sync_attendance_batch_commit_ok (db : DB) (records : List AttendanceRecordIn)
    (device_id : String) (now : Nat) :
    (sync_attendance_batch db records device_id now true "").1 =
      { db with attendance_logs := db.attendance_logs ++
          attendanceInsertsSpec device_id now db.attendance_logs records } ∧
    (sync_attendance_batch db records device_id now true "").2.success = true ∧
    (sync_attendance_batch db records device_id now true "").2.synced_count =
      (attendanceInsertsSpec device_id now db.attendance_logs records).length ∧
    ∃ fr,
      (sync_attendance_batch db records device_id now true "").2.failed_records = some fr ∧
      (sync_attendance_batch db records device_id now true "").2.failed_count =
        some fr.length ∧
      fr.map Prod.fst = records.filter (fun r => !(wellFormedRecord r)) := by
  obtain ⟨h1, h2, h3⟩ := attendance_loop_spec device_id now records db.attendance_logs 0 []
  have hs : sync_attendance_batch db records device_id now true "" =
      ({ db with attendance_logs :=
          (attendance_loop device_id now db.attendance_logs 0 [] records).1 },
       { success := true,
         synced_count := (attendance_loop device_id now db.attendance_logs 0 [] records).2.1,
         failed_count :=
           some (attendance_loop device_id now db.attendance_logs 0 [] records).2.2.length,
         failed_records :=
           some (attendance_loop device_id now db.attendance_logs 0 [] records).2.2,
         error := none }) := rfl
  refine ⟨?_, ?_, ?_,
    (attendance_loop device_id now db.attendance_logs 0 [] records).2.2, ?_, ?_, ?_⟩
  · rw [hs, h1]
  · rw [hs]
  · rw [hs]
    simp [h2]
  · rw [hs]
  · rw [hs]
  · simpa using h3

lemma attendanceInsertsSpec_nil_of_present (device_id : String) (now : Nat) :
    ∀ (records : List AttendanceRecordIn) (logs : List AttendanceLog),
      (∀ r ∈ records, record_key_present logs device_id r = true) →
      attendanceInsertsSpec device_id now logs records = [] := by
  intro records
  induction records with
  | nil => intro logs _; rfl
  | cons r rest ih =>
    intro logs h
    have hr := h r (List.mem_cons_self r rest)
    cases hu : parseUUID r.person_id with
    | none => simp [record_key_present, hu] at hr
    | some pid =>
      cases ht : parseISO r.timestamp with
      | none => simp [record_key_present, hu, ht] at hr
      | some ts =>
        have hdup : attendance_key_present logs pid ts device_id = true := by
          simpa [record_key_present, hu, ht] using hr
        simp only [attendanceInsertsSpec, hu, ht, hdup, eq_self_iff_true, if_true]
        exact ih logs (fun s hs => h s (List.mem_cons_of_mem r hs))

/-- C3: `sync_attendance_batch` deduplicates by the natural key
`{person_id, timestamp, device_id}`: with every record of the batch well
formed, the store grows by exactly the records whose key was not yet
present (in the sense of the spec-side description
`attendanceInsertsSpec`, which skips a record exactly when its key already
exists), `synced_count` is the number of inserted rows, no record is
counted as failed, and when every key of the batch is already present the
call leaves the store unchanged and reports `synced_count = 0`. -/
theorem C3_attendance_dedup (db : DB) (records : List AttendanceRecordIn)
    (device_id : String) (now : Nat)
    (hparse : ∀ r ∈ records, wellFormedRecord r = true) :
    (sync_attendance_batch db records device_id now true "").2.success = true ∧
    (sync_attendance_batch db records device_id now true "").1.attendance_logs =
      db.attendance_logs ++ attendanceInsertsSpec device_id now db.attendance_logs records ∧
    (sync_attendance_batch db records device_id now true "").2.synced_count =
      (attendanceInsertsSpec device_id now db.attendance_logs records).length ∧
    (sync_attendance_batch db records device_id now true "").2.failed_count = some 0 ∧
    ((∀ r ∈ records, record_key_present db.attendance_logs device_id r = true) →
      (sync_attendance_batch db records device_id now true "").1 = db ∧
      (sync_attendance_batch db records device_id now true "").2.synced_count = 0) := by
  obtain ⟨hfull, hsucc, hcnt, fr, hfr, hfc, hmapfr⟩ :=
    sync_attendance_batch_commit_ok db records device_id now
  have hfrnil : fr = [] := by
    have hmapnil : fr.map Prod.fst = [] := by
      rw [hmapfr]
      rw [List.filter_eq_nil_iff]
      intro r hr
      simp [hparse r hr]
    exact List.map_eq_nil_iff.mp hmapnil
  refine ⟨hsucc, by rw [hfull], hcnt, by rw [hfc, hfrnil]; rfl, ?_⟩
  intro hpresent
  have hnil := attendanceInsertsSpec_nil_of_present device_id now records
    db.attendance_logs hpresent
  constructor
  · rw [hfull, hnil]
    simp
  · rw [hcnt, hnil]
    rfl

/-- Test fixture: an attendance row already synced from device `dev1`. -/
def attLog1 : AttendanceLog :=
  { person_id := 5, method := "face", timestamp := 100, location := "main_gate",
    confidence_score := none, device_id := "dev1", synced_at := some 50 }

/-- Test fixture: a resubmission of `attLog1`'s record from the same
device. -/
def attRec1 : AttendanceRecordIn :=
  { person_id := "5", method := "face", timestamp := "100", location := none,
    confidence_score := none }

/-- Test fixture: a genuinely new attendance record. -/
def attRec2 : AttendanceRecordIn :=
  { person_id := "6", method := "face", timestamp := "101", location := none,
    confidence_score := none }

/-- Test fixture: a store already holding `attLog1`. -/
def dbAtt : DB :=
  { dispatches := [], gps_logs := [], geofence_alerts := [], persons := [],
    notifications := [], attendance_logs := [attLog1] }

/-- Witness for C3: the hypothesis of `C3_attendance_dedup` holds for a
partially-overlapping two-record batch against a store that already
contains the first record's key, and the conclusion follows by applying
the theorem there. -/
theorem C3_attendance_dedup_witness :
    (∀ r ∈ [attRec1, attRec2], wellFormedRecord r = true) ∧
    ((sync_attendance_batch dbAtt [attRec1, attRec2] "dev1" 200 true "").2.success = true ∧
    (sync_attendance_batch dbAtt [attRec1, attRec2] "dev1" 200 true "").1.attendance_logs =
      dbAtt.attendance_logs ++
        attendanceInsertsSpec "dev1" 200 dbAtt.attendance_logs [attRec1, attRec2] ∧
    (sync_attendance_batch dbAtt [attRec1, attRec2] "dev1" 200 true "").2.synced_count =
      (attendanceInsertsSpec "dev1" 200 dbAtt.attendance_logs [attRec1, attRec2]).length ∧
    (sync_attendance_batch dbAtt [attRec1, attRec2] "dev1" 200 true "").2.failed_count =
      some 0 ∧
    ((∀ r ∈ [attRec1, attRec2],
        record_key_present dbAtt.attendance_logs "dev1" r = true) →
      (sync_attendance_batch dbAtt [attRec1, attRec2] "dev1" 200 true "").1 = dbAtt ∧
      (sync_attendance_batch dbAtt [attRec1, attRec2] "dev1" 200 true "").2.synced_count =
        0)) :=
  ⟨by decide, C3_attendance_dedup dbAtt [attRec1, attRec2] "dev1" 200 (by decide)⟩

/-- C5: per-record failure isolation and commit-failure rollback of
`sync_attendance_batch`: the malformed records of a batch are exactly the
ones collected (with their errors) into `failed_records`, with
`failed_count` their number; the well-formed non-duplicate records are
still inserted, with `synced_count` the number of inserted rows; and when
the final commit fails the store is returned unchanged with
`success = false`, `synced_count = 0` and the exception text surfaced. -/
theorem C5_partial_failure_isolation (db : DB) (records : List AttendanceRecordIn)
    (device_id : String) (now : Nat) (commit_error : String) :
    (sync_attendance_batch db records device_id now true "").2.success = true ∧
    (∃ fr,
      (sync_attendance_batch db records device_id now true "").2.failed_records = some fr ∧
      fr.map Prod.fst = records.filter (fun r => !(wellFormedRecord r)) ∧
      (sync_attendance_batch db records device_id now true "").2.failed_count =
        some fr.length) ∧
    (sync_attendance_batch db records device_id now true "").1.attendance_logs =
      db.attendance_logs ++ attendanceInsertsSpec device_id now db.attendance_logs records ∧
    (sync_attendance_batch db records device_id now true "").2.synced_count =
      (attendanceInsertsSpec device_id now db.attendance_logs records).length ∧
    sync_attendance_batch db records device_id now false commit_error =
      (db,
       { success := false, synced_count := 0, failed_count := none,
         failed_records := none, error := some commit_error }) := by
  obtain ⟨hfull, hsucc, hcnt, fr, hfr, hfc, hmapfr⟩ :=
    sync_attendance_batch_commit_ok db records device_id now
  exact ⟨hsucc, ⟨fr, hfr, hmapfr, hfc⟩, by rw [hfull], hcnt, rfl⟩

lemma sync_gps_batch_commit_ok (db : DB) (records : List GPSRecordIn)
    (dispatch_id now : Nat) :
    OfflineSyncQueue_sync_gps_batch db records dispatch_id now true "" =
      ({ db with gps_logs := db.gps_logs ++ gpsInsertsSpec dispatch_id now records },
       { success := true,
         synced_count := some (gpsInsertsSpec dispatch_id now records).length,
         error := none }) := by
  obtain ⟨hl, hc⟩ := gps_loop_spec dispatch_id now records db.gps_logs 0
  have hs : OfflineSyncQueue_sync_gps_batch db records dispatch_id now true "" =
      ({ db with gps_logs := (gps_loop dispatch_id now db.gps_logs 0 records).1 },
       { success := true,
         synced_count := some (gps_loop dispatch_id now db.gps_logs 0 records).2,
         error := none }) := rfl
  rw [hs, hl, hc]
  simp

lemma gpsInsertsSpec_flags (dispatch_id now : Nat) :
    ∀ (records : List GPSRecordIn),
      ∀ l ∈ gpsInsertsSpec dispatch_id now records,
        l.is_offline_queued = true ∧ l.synced_at = some now := by
  intro records
  induction records with
  | nil => intro l hl; simp [gpsInsertsSpec] at hl
  | cons r rest ih =>
    intro l hl
    cases ht : parseISO r.timestamp with
    | none =>
      rw [gpsInsertsSpec, ht] at hl
      exact ih l hl
    | some ts =>
      rw [gpsInsertsSpec, ht] at hl
      cases hl with
      | head => exact ⟨rfl, rfl⟩
      | tail _ h => exact ih l h

/-- C6: `OfflineSyncQueue.sync_gps_batch` inserts every well-formed record
of the batch unconditionally — the inserted rows are described by
`gpsInsertsSpec`, which never consults the existing store — each with
`is_offline_queued = true` and `synced_at` the reconciliation time; no
duplicate suppression exists, so submitting the same batch twice appends
the same rows twice. -/
theorem C6_gps_batch_no_dedup (db : DB) (records : List GPSRecordIn)
    (dispatch_id now : Nat) :
    OfflineSyncQueue_sync_gps_batch db records dispatch_id now true "" =
      ({ db with gps_logs := db.gps_logs ++ gpsInsertsSpec dispatch_id now records },
       { success := true,
         synced_count := some (gpsInsertsSpec dispatch_id now records).length,
         error := none }) ∧
    (∀ l ∈ gpsInsertsSpec dispatch_id now records,
      l.is_offline_queued = true ∧ l.synced_at = some now) ∧
    ((OfflineSyncQueue_sync_gps_batch
        (OfflineSyncQueue_sync_gps_batch db records dispatch_id now true "").1
        records dispatch_id now true "").1).gps_logs =
      db.gps_logs ++ gpsInsertsSpec dispatch_id now records ++
        gpsInsertsSpec dispatch_id now records := by
  refine ⟨sync_gps_batch_commit_ok db records dispatch_id now,
    gpsInsertsSpec_flags dispatch_id now records, ?_⟩
  rw [sync_gps_batch_commit_ok db records dispatch_id now]
  rw [sync_gps_batch_commit_ok
    { db with gps_logs := db.gps_logs ++ gpsInsertsSpec dispatch_id now records }
    records dispatch_id now]

/-- C10: the batch-sync route performs no existence, state or ownership
check on the target dispatch: for every authenticated driver the call
succeeds and appends exactly the batch's rows, and the result is the same
for any contents of the dispatch table whatsoever — in particular when no
dispatch with the requested id exists, when it is not in transit, or when
it belongs to a different driver.  (The live-ping route, by contrast,
filters by the caller's `driver_id` and raises 404 on a mismatch.) -/
theorem C10_batch_sync_skips_dispatch_checks (db : DB) (dispatches2 : List Dispatch)
    (request : BatchGPSSync) (current_user : PersonRecord) (now : Nat)
    (hrole : require_role ["driver"] current_user = true) :
    sync_gps_batch_route db request current_user now true "" =
      Except.ok
        ({ db with gps_logs := db.gps_logs ++
            gpsInsertsSpec request.dispatch_id now request.locations },
         { success := true,
           synced_count := some (gpsInsertsSpec request.dispatch_id now
             request.locations).length,
           error := none }) ∧
    sync_gps_batch_route { db with dispatches := dispatches2 } request current_user now
        true "" =
      Except.ok
        ({ db with
           dispatches := dispatches2,
           gps_logs :=
             (db.gps_logs ++ gpsInsertsSpec request.dispatch_id now request.locations) },
         { success := true,
           synced_count := some (gpsInsertsSpec request.dispatch_id now
             request.locations).length,
           error := none }) := by
  constructor
  · simp only [sync_gps_batch_route, hrole, eq_self_iff_true, if_true]
    rw [sync_gps_batch_commit_ok db request.locations request.dispatch_id now]
  · simp only [sync_gps_batch_route, hrole, eq_self_iff_true, if_true]
    rw [sync_gps_batch_commit_ok { db with dispatches := dispatches2 }
      request.locations request.dispatch_id now]

/-- Test fixture: an offline GPS batch for a dispatch id that matches no
dispatch at all. -/
def requestGhost : BatchGPSSync :=
  { dispatch_id := 99,
    locations := [{ latitude := 0, longitude := 0, speed := none, timestamp := "100" }] }

/-- Witness for C10: the role hypothesis holds for the fixture driver, and
the conclusion follows by applying the theorem with an empty dispatch
table and a request naming a nonexistent dispatch. -/
theorem C10_batch_sync_skips_dispatch_checks_witness :
    require_role ["driver"] userW = true ∧
    (sync_gps_batch_route dbLive requestGhost userW 7 true "" =
      Except.ok
        ({ dbLive with gps_logs := dbLive.gps_logs ++
            gpsInsertsSpec requestGhost.dispatch_id 7 requestGhost.locations },
         { success := true,
           synced_count := some (gpsInsertsSpec requestGhost.dispatch_id 7
             requestGhost.locations).length,
           error := none }) ∧
    sync_gps_batch_route { dbLive with dispatches := [] } requestGhost userW 7 true "" =
      Except.ok
        ({ dbLive with
           dispatches := [],
           gps_logs :=
             (dbLive.gps_logs ++
               gpsInsertsSpec requestGhost.dispatch_id 7 requestGhost.locations) },
         { success := true,
           synced_count := some (gpsInsertsSpec requestGhost.dispatch_id 7
             requestGhost.locations).length,
           error := none })) :=
  ⟨by decide,
    C10_batch_sync_skips_dispatch_checks dbLive [] requestGhost userW 7 (by decide)⟩
